import Mathlib

/-!
Verification development for the QA automation LTI task orchestrator
(`qa-automation-lti.js` and its V3 revision).  The definitions below are a
shallow embedding of the orchestrator's pure logic: the result extractor
(sentinel-regex fallback chain over worker stdout), the stderr error
classifier, the request-validation pipelines that precede a worker spawn,
and the per-invocation event handling (timeout timer, close handler,
spawn-error handler) of the analyze and execute operations.
-/

namespace QALti

/-! ### Character constants and string helpers

Characters that are awkward to quote are built with `Char.ofNat`:
34 is the double quote, 39 the apostrophe, 92 the backslash,
123 the opening curly brace, 125 the closing curly brace.
-/

def qChar : Char := Char.ofNat 34

def apChar : Char := Char.ofNat 39

def bsChar : Char := Char.ofNat 92

def lbChar : Char := Char.ofNat 123

def rbChar : Char := Char.ofNat 125

def nlChar : Char := Char.ofNat 10

def crChar : Char := Char.ofNat 13

/-- Whitespace class of the JavaScript regex escape for whitespace
(space, tab, line feed, carriage return, vertical tab, form feed). -/
def jsWs (c : Char) : Bool :=
  c == ' ' || c == Char.ofNat 9 || c == nlChar || c == crChar ||
  c == Char.ofNat 11 || c == Char.ofNat 12

/-- Whitespace accepted between tokens by JSON.parse. -/
def jsonWs (c : Char) : Bool :=
  c == ' ' || c == Char.ofNat 9 || c == nlChar || c == crChar

def listIsPrefixOf : List Char → List Char → Bool
  | [], _ => true
  | _ :: _, [] => false
  | a :: as, b :: bs => a == b && listIsPrefixOf as bs

/-- Does `pat` occur as a contiguous substring of the second list?
Models the JavaScript `String.prototype.includes` check. -/
def listHasInfix (pat : List Char) : List Char → Bool
  | [] => listIsPrefixOf pat []
  | c :: rest => listIsPrefixOf pat (c :: rest) || listHasInfix pat rest

def strIncludes (s pat : String) : Bool := listHasInfix pat.data s.data

/-- Models `s.substring(0, n)`. -/
def strTake (s : String) (n : Nat) : String := String.mk (s.data.take n)

def strLen (s : String) : Nat := s.data.length

/-! ### JSON values and a model of JSON.parse

Numbers keep their raw lexeme so that no numeric information is lost. -/

inductive JValue where
  | jnull
  | jbool (b : Bool)
  | jnum (raw : String)
  | jstr (s : String)
  | jarr (items : List JValue)
  | jobj (fields : List (String × JValue))

def skipJWs : List Char → List Char
  | [] => []
  | c :: cs => if jsonWs c then skipJWs cs else c :: cs

def hexVal (c : Char) : Option Nat :=
  if c.toNat ≥ 48 && c.toNat ≤ 57 then some (c.toNat - 48)
  else if c.toNat ≥ 97 && c.toNat ≤ 102 then some (c.toNat - 87)
  else if c.toNat ≥ 65 && c.toNat ≤ 70 then some (c.toNat - 55)
  else none

def consOut (c : Char) : Option (List Char × List Char) → Option (List Char × List Char)
  | some (out, r) => some (c :: out, r)
  | none => none

/-- Parse the body of a JSON string literal (the opening quote already
consumed); returns the decoded characters and the rest of the input after
the closing quote.  Handles the escape sequences accepted by JSON.parse and
rejects unescaped control characters. -/
def parseStrBody : List Char → Option (List Char × List Char)
  | [] => none
  | c :: cs =>
    if c == qChar then some ([], cs)
    else if c == bsChar then
      match cs with
      | [] => none
      | e :: cs2 =>
        if e == qChar || e == bsChar || e == '/' then consOut e (parseStrBody cs2)
        else if e == 'b' then consOut (Char.ofNat 8) (parseStrBody cs2)
        else if e == 'f' then consOut (Char.ofNat 12) (parseStrBody cs2)
        else if e == 'n' then consOut nlChar (parseStrBody cs2)
        else if e == 'r' then consOut crChar (parseStrBody cs2)
        else if e == 't' then consOut (Char.ofNat 9) (parseStrBody cs2)
        else if e == 'u' then
          match cs2 with
          | h1 :: h2 :: h3 :: h4 :: cs3 =>
            match hexVal h1, hexVal h2, hexVal h3, hexVal h4 with
            | some a, some b, some c2, some d =>
              consOut (Char.ofNat (((a * 16 + b) * 16 + c2) * 16 + d)) (parseStrBody cs3)
            | _, _, _, _ => none
          | _ => none
        else none
    else if c.toNat < 32 then none
    else consOut c (parseStrBody cs)

def isDigitCh (c : Char) : Bool := c.toNat ≥ 48 && c.toNat ≤ 57

def takeDigits : List Char → (List Char × List Char)
  | [] => ([], [])
  | c :: cs =>
    if isDigitCh c then
      let (d, r) := takeDigits cs
      (c :: d, r)
    else ([], c :: cs)

/-- Integer part of a JSON number: a single zero, or a nonzero digit
followed by digits. -/
def lexIntPart : List Char → Option (List Char × List Char)
  | [] => none
  | c :: cs =>
    if c == '0' then some ([c], cs)
    else if isDigitCh c then
      let (d, r) := takeDigits cs
      some (c :: d, r)
    else none

def lexFracPart (l : List Char) : Option (List Char × List Char) :=
  match l with
  | c :: cs =>
    if c == '.' then
      match takeDigits cs with
      | ([], _) => none
      | (d, r) => some (c :: d, r)
    else some ([], l)
  | [] => some ([], [])

def lexExpPart (l : List Char) : Option (List Char × List Char) :=
  match l with
  | c :: cs =>
    if c == 'e' || c == 'E' then
      match cs with
      | s :: cs2 =>
        if s == '+' || s == '-' then
          match takeDigits cs2 with
          | ([], _) => none
          | (d, r) => some (c :: s :: d, r)
        else
          match takeDigits cs with
          | ([], _) => none
          | (d, r) => some (c :: d, r)
      | [] => none
    else some ([], l)
  | [] => some ([], [])

/-- Lex a JSON number lexeme, returning the raw lexeme characters and the
rest of the input. -/
def lexNum (l : List Char) : Option (List Char × List Char) :=
  let (sign, body) :=
    match l with
    | c :: cs => if c == '-' then ([c], cs) else (([] : List Char), l)
    | [] => ([], [])
  match lexIntPart body with
  | none => none
  | some (ip, r1) =>
    match lexFracPart r1 with
    | none => none
    | some (fp, r2) =>
      match lexExpPart r2 with
      | none => none
      | some (ep, r3) => some (sign ++ ip ++ fp ++ ep, r3)

mutual

/-- Fuel-indexed recursive-descent model of JSON.parse for a single value. -/
def parseVal : Nat → List Char → Option (JValue × List Char)
  | 0, _ => none
  | Nat.succ fuel, l =>
    match skipJWs l with
    | [] => none
    | c :: rest =>
      if c == qChar then
        match parseStrBody rest with
        | some (out, r) => some (JValue.jstr (String.mk out), r)
        | none => none
      else if c == lbChar then parseObjFields fuel rest true []
      else if c == Char.ofNat 91 then parseArrItems fuel rest true []
      else if listIsPrefixOf "true".data (c :: rest) then
        some (JValue.jbool true, (c :: rest).drop 4)
      else if listIsPrefixOf "false".data (c :: rest) then
        some (JValue.jbool false, (c :: rest).drop 5)
      else if listIsPrefixOf "null".data (c :: rest) then
        some (JValue.jnull, (c :: rest).drop 4)
      else
        match lexNum (c :: rest) with
        | some (lex, r) => some (JValue.jnum (String.mk lex), r)
        | none => none

/-- Items of a JSON array, after the opening bracket. -/
def parseArrItems : Nat → List Char → Bool → List JValue → Option (JValue × List Char)
  | 0, _, _, _ => none
  | Nat.succ fuel, l, first, acc =>
    match skipJWs l with
    | [] => none
    | c :: rest =>
      if c == Char.ofNat 93 && first then some (JValue.jarr [], rest)
      else
        match parseVal fuel (c :: rest) with
        | none => none
        | some (v, r) =>
          match skipJWs r with
          | [] => none
          | c2 :: r2 =>
            if c2 == ',' then parseArrItems fuel r2 false (v :: acc)
            else if c2 == Char.ofNat 93 then some (JValue.jarr ((v :: acc).reverse), r2)
            else none

/-- Fields of a JSON object, after the opening brace. -/
def parseObjFields : Nat → List Char → Bool → List (String × JValue) → Option (JValue × List Char)
  | 0, _, _, _ => none
  | Nat.succ fuel, l, first, acc =>
    match skipJWs l with
    | [] => none
    | c :: rest =>
      if c == rbChar && first then some (JValue.jobj [], rest)
      else if c == qChar then
        match parseStrBody rest with
        | none => none
        | some (key, r1) =>
          match skipJWs r1 with
          | [] => none
          | c2 :: r2 =>
            if c2 == ':' then
              match parseVal fuel r2 with
              | none => none
              | some (v, r3) =>
                match skipJWs r3 with
                | [] => none
                | c3 :: r4 =>
                  if c3 == ',' then parseObjFields fuel r4 false ((String.mk key, v) :: acc)
                  else if c3 == rbChar then
                    some (JValue.jobj (((String.mk key, v) :: acc).reverse), r4)
                  else none
            else none
      else none

end

/-- Model of `JSON.parse(s)`: a single JSON value with nothing but
whitespace around it; anything else throws, modelled as `none`. -/
def jsonParse (s : String) : Option JValue :=
  match parseVal (s.data.length * 2 + 4) s.data with
  | some (v, r) => if (skipJWs r).isEmpty then some v else none
  | none => none

/-- Property lookup on a parsed JSON object: JSON.parse assigns fields in
order, so for a duplicated key the last occurrence wins. -/
def jlookLast (fs : List (String × JValue)) (k : String) : Option JValue :=
  match fs with
  | [] => none
  | (k2, v) :: rest =>
    match jlookLast rest k with
    | some w => some w
    | none => if k2 == k then some v else none

/-- `v.k` property access: defined on objects, `none` (undefined) otherwise. -/
def jget (v : JValue) (k : String) : Option JValue :=
  match v with
  | JValue.jobj fs => jlookLast fs k
  | _ => none

/-- `v.k1?.k2` optional-chained access. -/
def jget2 (v : JValue) (k1 k2 : String) : Option JValue :=
  (jget v k1).bind (fun w => jget w k2)

/-- Is the numeric lexeme the number zero (the only falsy JSON number)? -/
def numZeroLex (l : List Char) : Bool :=
  (l.takeWhile (fun c => !(c == 'e' || c == 'E'))).all
    (fun c => c == '0' || c == '.' || c == '-')

/-- JavaScript truthiness of a JSON value. -/
def jsTruthy : JValue → Bool
  | JValue.jnull => false
  | JValue.jbool b => b
  | JValue.jnum raw => !(numZeroLex raw.data)
  | JValue.jstr s => !(s == "")
  | JValue.jarr _ => true
  | JValue.jobj _ => true

/-- Models `expr || []` applied to an optional-chain result. -/
def jsOrArr (o : Option JValue) : JValue :=
  match o with
  | some v => if jsTruthy v then v else JValue.jarr []
  | none => JValue.jarr []

/-- Models `expr?.length || 0`: length of an array or string value,
zero for anything else (including undefined). -/
def jsLenOr0 (o : Option JValue) : Nat :=
  match o with
  | some (JValue.jarr xs) => xs.length
  | some (JValue.jstr s) => strLen s
  | _ => 0

/-! ### Models of the regular expressions used by the orchestrator -/

/-- Greedy run of non-line-terminator characters: what the dot-plus part of
a JavaScript regex matches from a given start position. -/
def takeLine (l : List Char) : List Char :=
  l.takeWhile (fun c => !(c == nlChar || c == crChar))

def wsRunLen (l : List Char) : Nat := (l.takeWhile jsWs).length

/-- Greatest index of a character that is not a line terminator. -/
def lastNonNlIdx : List Char → Option Nat
  | [] => none
  | c :: cs =>
    match lastNonNlIdx cs with
    | some j => some (j + 1)
    | none => if c == nlChar || c == crChar then none else some 0

/-- Greatest index of an occurrence of `t`. -/
def lastIdxOf (t : Char) : List Char → Option Nat
  | [] => none
  | c :: cs =>
    match lastIdxOf t cs with
    | some j => some (j + 1)
    | none => if c == t then some 0 else none

/-- What a whitespace-star followed by a captured dot-plus matches at the
start of `r`: the whitespace run is consumed greedily, backtracking just
enough to leave at least one non-line-terminator character for the capture,
which then extends to the end of the line. -/
def matchWsDotPlus (r : List Char) : Option (List Char) :=
  let w := wsRunLen r
  let rest := r.drop w
  match rest with
  | _ :: _ => some (takeLine rest)
  | [] =>
    match lastNonNlIdx (r.take w) with
    | some j => some (takeLine (r.drop j))
    | none => none

/-- A captured dot-plus with no preceding whitespace-star: at least one
non-line-terminator character, extending to the end of the line. -/
def matchDotPlusNoWs (r : List Char) : Option (List Char) :=
  match r with
  | c :: _ => if c == nlChar || c == crChar then none else some (takeLine r)
  | [] => none

/-- What a whitespace-star followed by a captured brace-to-brace greedy
group matches at the start of `r`: whitespace, then an opening brace, then
everything up to the last closing brace of the text. -/
def matchWsBraceGreedy (r : List Char) : Option (List Char) :=
  let rest := r.drop (wsRunLen r)
  match rest with
  | c :: cs =>
    if c == lbChar then
      match lastIdxOf rbChar cs with
      | some k => some (c :: cs.take (k + 1))
      | none => none
    else none
  | [] => none

/-- Unanchored scan for a literal sentinel followed by a tail matcher;
like a JavaScript regex, scanning resumes at the next character when the
tail fails at one occurrence of the literal. -/
def findSentinel (sent : List Char) (tailMatch : List Char → Option (List Char)) :
    List Char → Option (List Char)
  | [] => none
  | c :: rest =>
    if listIsPrefixOf sent (c :: rest) then
      match tailMatch (List.drop sent.length (c :: rest)) with
      | some cap => some cap
      | none => findSentinel sent tailMatch rest
    else findSentinel sent tailMatch rest

/-- Capture group of the enhanced-sentinel dot-plus regex used by the
deployed `analyzeTask` (strategy 1). -/
def strat1CaptureMain (out : String) : Option String :=
  (findSentinel "ENHANCED_ANALYSIS_JSON:".data matchWsDotPlus out.data).map String.mk

/-- Capture group of the legacy-sentinel dot-plus regex used by the
deployed `analyzeTask` (strategy 2). -/
def strat2CaptureMain (out : String) : Option String :=
  (findSentinel "JSON_OUTPUT:".data matchWsDotPlus out.data).map String.mk

/-- The greedy brace regex of extraction strategy 3: it matches from the
first opening brace of the text to the last closing brace. -/
def greedyBraceSpanStr (out : String) : Option String :=
  match out.data.dropWhile (fun c => !(c == lbChar)) with
  | c :: cs =>
    match lastIdxOf rbChar cs with
    | some k => some (String.mk (c :: cs.take (k + 1)))
    | none => none
  | [] => none

/-- Capture group of the enhanced-sentinel brace regex used by the V3
`analyzeTask`. -/
def strat1CaptureV3 (out : String) : Option String :=
  (findSentinel "ENHANCED_ANALYSIS_JSON:".data matchWsBraceGreedy out.data).map String.mk

/-- Capture group of the execution-results regex of the deployed
`executeApprovedActions` (a literal sentinel with one space, then a
captured dot-plus). -/
def execCaptureMain (out : String) : Option String :=
  (findSentinel "EXECUTION_RESULTS_JSON: ".data matchDotPlusNoWs out.data).map String.mk

/-- Capture group of the execution-results brace regex of the V3
`executeApprovedActions`. -/
def execCaptureV3 (out : String) : Option String :=
  (findSentinel "EXECUTION_RESULTS_JSON:".data matchWsBraceGreedy out.data).map String.mk

/-- Capture of the missing-module regex of the error classifier: the text
between the literal marker and the next apostrophe, nonempty and
terminated. -/
def matchModTail (r : List Char) : Option (List Char) :=
  let cap := r.takeWhile (fun c => !(c == apChar))
  match cap with
  | [] => none
  | _ :: _ => if cap.length == r.length then none else some cap

def moduleNameCapture (s : String) : Option String :=
  (findSentinel ("No module named ".data ++ [apChar]) matchModTail s.data).map String.mk

/-! ### Error classifier -/

/-- Classification kinds produced by the nonzero-exit branches of the two
`analyzeTask` revisions (and, for comparison, by the specified taxonomy). -/
inductive ErrKind where
  | missingDep (moduleName : Option String)
  | authFail
  | permDenied
  | notFound
  | netTimeout
  | importErr
  | genericTrunc (excerpt : String)
  | bare
deriving DecidableEq

/-- The nonzero-exit stderr scan of the deployed `analyzeTask`,
branch conditions and order exactly as in the source if-chain. -/
def classifyKindMain (stderr : String) : ErrKind :=
  if strIncludes stderr "ModuleNotFoundError" then ErrKind.missingDep (moduleNameCapture stderr)
  else if strIncludes stderr "401" || strIncludes stderr "Unauthorized" then ErrKind.authFail
  else if strIncludes stderr "403" || strIncludes stderr "Forbidden" then ErrKind.permDenied
  else if strIncludes stderr "404" then ErrKind.notFound
  else if strIncludes stderr "timeout" || strIncludes stderr "ConnectionError" then
    ErrKind.netTimeout
  else if strIncludes stderr "ImportError" then ErrKind.importErr
  else if stderr == "" then ErrKind.bare
  else ErrKind.genericTrunc (strTake stderr 200)

/-- The nonzero-exit stderr scan of the V3 `analyzeTask`; it has no
network-timeout branch and no import-error branch, and truncates the
generic excerpt at 300 characters. -/
def classifyKindV3 (stderr : String) : ErrKind :=
  if strIncludes stderr "ModuleNotFoundError" then ErrKind.missingDep (moduleNameCapture stderr)
  else if strIncludes stderr "401" || strIncludes stderr "Unauthorized" then ErrKind.authFail
  else if strIncludes stderr "403" || strIncludes stderr "Forbidden" then ErrKind.permDenied
  else if strIncludes stderr "404" then ErrKind.notFound
  else if stderr == "" then ErrKind.bare
  else ErrKind.genericTrunc (strTake stderr 300)

/-- Follows the words of the spec, section 4.5: for nonzero exit, scan the
stderr text and map, in priority order, to MissingDependency,
AuthenticationFailure, PermissionDenied, NotFound, NetworkTimeout, else a
generic worker error carrying a truncated copy of stderr.  Stated here for
comparison with the classifier translated from the source. -/
def specClassifyKind (stderr : String) : ErrKind :=
  if strIncludes stderr "ModuleNotFoundError" then ErrKind.missingDep (moduleNameCapture stderr)
  else if strIncludes stderr "401" || strIncludes stderr "Unauthorized" then ErrKind.authFail
  else if strIncludes stderr "403" || strIncludes stderr "Forbidden" then ErrKind.permDenied
  else if strIncludes stderr "404" then ErrKind.notFound
  else if strIncludes stderr "timeout" || strIncludes stderr "ConnectionError" then
    ErrKind.netTimeout
  else ErrKind.genericTrunc (strTake stderr 200)

/-- Error messages of the deployed `analyzeTask` for each branch. -/
def classifyMsgMain (code : Int) (stderr : String) : String :=
  match classifyKindMain stderr with
  | ErrKind.missingDep (some m) =>
    "Missing Python package: " ++ m ++ ". Please install it with: pip3 install " ++ m
  | ErrKind.missingDep none => "Missing Python packages. Please install required dependencies."
  | ErrKind.authFail => "Canvas API authentication failed. Please check your API token."
  | ErrKind.permDenied => "Canvas API access forbidden. Please check your API token permissions."
  | ErrKind.notFound => "Course not found or API endpoint invalid. Please check the course ID."
  | ErrKind.netTimeout => "Network timeout connecting to Canvas. Please try again."
  | ErrKind.importErr => "Python script import error. Please check script dependencies."
  | ErrKind.genericTrunc t => "Python script error: " ++ t
  | ErrKind.bare => "Analysis failed with exit code " ++ toString code

/-- Error messages of the V3 `analyzeTask` for each branch. -/
def classifyMsgV3 (code : Int) (stderr : String) : String :=
  match classifyKindV3 stderr with
  | ErrKind.missingDep (some m) =>
    "Missing Python package: " ++ m ++ ". Please run: pip install " ++ m
  | ErrKind.missingDep none => "Missing Python dependencies."
  | ErrKind.authFail => "Canvas API authentication failed (401). Please check your API token."
  | ErrKind.permDenied =>
    "Canvas API access forbidden (403). Please check your API token permissions."
  | ErrKind.notFound =>
    "Course not found or API endpoint invalid (404). Please check the course ID."
  | ErrKind.genericTrunc t => "The script encountered an error: " ++ t ++ "..."
  | ErrKind.bare => "Analysis script failed with exit code " ++ toString code ++ "."
  | _ => ""

/-! ### Result extraction (analyze mode) -/

/-- Which extraction strategy produced the resolved analysis value in the
deployed `analyzeTask`. -/
inductive MTag where
  | enhanced
  | fallbackMode
  | extractedMode
  | degradedKeyword
deriving DecidableEq

/-- The informative fields of the object resolved by the deployed
`analyzeTask` on exit code 0 (the constant fields such as the phase and
mode markers are not modelled).  Only strategy 1 populates the
convenience fields. -/
structure MainResolve where
  tag : MTag
  findings : JValue
  safe_actions : Option JValue
  requires_manual_review : Option JValue
  risk_assessment : Option JValue

/-- Completion keywords of extraction strategy 4. -/
def mainKeywordHit (out : String) : Bool :=
  strIncludes out "Enhanced analysis complete" || strIncludes out "Found" ||
  strIncludes out "analysis" || strIncludes out "✅ Phase 2 Enhanced Analysis completed" ||
  strIncludes out "Analysis and cleanup completed"

/-- Extraction strategies 4 and 5 of the deployed `analyzeTask`: a
degraded keyword result, else the unrecognizable-output rejection. -/
def extractMainS4 (out : String) : Except String MainResolve :=
  if mainKeywordHit out then
    Except.ok
      { tag := MTag.degradedKeyword
        findings := JValue.jobj
          [("message", JValue.jstr "Analysis completed but results parsing failed"),
           ("raw_output", JValue.jstr (strTake out 1000))]
        safe_actions := none
        requires_manual_review := none
        risk_assessment := none }
  else
    Except.error
      ("Analysis completed but no recognizable results were found. Raw output: " ++
        strTake out 500)

/-- Extraction strategy 3 of the deployed `analyzeTask`: parse the greedy
first-brace-to-last-brace span of the whole text. -/
def extractMainS3 (out : String) : Except String MainResolve :=
  match greedyBraceSpanStr out with
  | some cap =>
    match jsonParse cap with
    | some doc =>
      Except.ok
        { tag := MTag.extractedMode, findings := doc, safe_actions := none
          requires_manual_review := none, risk_assessment := none }
    | none => extractMainS4 out
  | none => extractMainS4 out

/-- Extraction strategy 2 of the deployed `analyzeTask`: the legacy
sentinel. -/
def extractMainS2 (out : String) : Except String MainResolve :=
  match strat2CaptureMain out with
  | some cap =>
    match jsonParse cap with
    | some doc =>
      Except.ok
        { tag := MTag.fallbackMode, findings := doc, safe_actions := none
          requires_manual_review := none, risk_assessment := none }
    | none => extractMainS3 out
  | none => extractMainS3 out

/-- The full extraction chain of the deployed `analyzeTask` on exit
code 0, strategy 1 first. -/
def extractMain (out : String) : Except String MainResolve :=
  match strat1CaptureMain out with
  | some cap =>
    match jsonParse cap with
    | some doc =>
      Except.ok
        { tag := MTag.enhanced
          findings := doc
          safe_actions := some (jsOrArr (jget2 doc "findings" "safe_actions"))
          requires_manual_review := some (jsOrArr (jget2 doc "findings" "requires_manual_review"))
          risk_assessment := jget doc "risk_assessment" }
    | none => extractMainS2 out
  | none => extractMainS2 out

/-- The close handler of the deployed `analyzeTask`: extraction on exit
code 0, classification otherwise. -/
def analyzeCloseMain (code : Int) (out err : String) : Except String MainResolve :=
  if code = 0 then extractMain out else Except.error (classifyMsgMain code err)

/-- The close handler of the V3 `analyzeTask`: on exit code 0 the parsed
sentinel document is resolved directly. -/
def analyzeCloseV3 (code : Int) (out err : String) : Except String JValue :=
  if code = 0 then
    match strat1CaptureV3 out with
    | some cap =>
      match jsonParse cap with
      | some doc => Except.ok doc
      | none => Except.error "Analysis completed but result processing failed."
    | none =>
      Except.error
        ("Analysis completed, but no recognizable results were found in the output. Raw output: "
          ++ out)
  else Except.error (classifyMsgV3 code err)

/-! ### Execute-mode close handler and invocation event handling -/

/-- The value resolved by the deployed `executeApprovedActions` close
handler on exit code 0. -/
inductive ExecOutcomeMain where
  | results (doc : JValue) (requested completed failed : Nat)
  | completedRaw (output : String)

/-- The close handler of the deployed `executeApprovedActions`, after the
cleanup attempt: parse the execution-results sentinel on exit code 0,
otherwise reject with the full stderr text interpolated. -/
def executeCloseMain (batch : List JValue) (code : Int) (out err : String) :
    Except String ExecOutcomeMain :=
  if code = 0 then
    match execCaptureMain out with
    | some cap =>
      match jsonParse cap with
      | some doc =>
        Except.ok (ExecOutcomeMain.results doc batch.length
          (jsLenOr0 (jget doc "successful_deletions")) (jsLenOr0 (jget doc "failed_deletions")))
      | none => Except.ok (ExecOutcomeMain.completedRaw out)
    | none => Except.ok (ExecOutcomeMain.completedRaw out)
  else Except.error ("Execution failed: " ++ err)

/-- Terminal events a child-process invocation can observe: the timer
firing, the close event with the exit code and the accumulated output
streams, or a spawn error (with its ENOENT flag and message text). -/
inductive WEvent where
  | timeoutFired
  | closed (code : Int) (out err : String)
  | spawnErrored (enoent : Bool) (msg : String)

/-- A promise settles exactly once: later resolve and reject calls have no
effect. -/
def settleOnce {α : Type} (cur : Option α) (v : α) : Option α :=
  match cur with
  | some w => some w
  | none => some v

structure AnalyzeRun where
  settled : Option (Except String MainResolve)
  killedSigTerm : Bool
  timerCleared : Bool

def analyzeInit : AnalyzeRun := { settled := none, killedSigTerm := false, timerCleared := false }

/-- The wall-clock deadline registered by `analyzeTask` (both revisions):
five minutes. -/
def analyzeTimeoutMsMain : Nat := 300000

def analyzeTimeoutMsgMain : String :=
  "Analysis timed out after 5 minutes. This may indicate a network issue or large course size."

/-- Event handling of a deployed `analyzeTask` invocation, translated from
the handlers the source registers: the 300000 ms timer kills the child with
SIGTERM and rejects; the close handler clears the timer and settles with
extraction or classification; the spawn-error handler clears the timer and
rejects. -/
def analyzeStepMain (s : AnalyzeRun) (e : WEvent) : AnalyzeRun :=
  match e with
  | WEvent.timeoutFired =>
    if s.timerCleared then s
    else
      { s with killedSigTerm := true
               settled := settleOnce s.settled (Except.error analyzeTimeoutMsgMain) }
  | WEvent.closed code out err =>
    { s with timerCleared := true
             settled := settleOnce s.settled (analyzeCloseMain code out err) }
  | WEvent.spawnErrored enoent msg =>
    { s with timerCleared := true
             settled := settleOnce s.settled (Except.error
               (if enoent then
                 "Python3 not found. Please ensure Python 3 is installed and accessible via \"python3\" command."
               else "Failed to start analysis process: " ++ msg)) }

structure ExecRun where
  settled : Option (Except String ExecOutcomeMain)
  fileDeleted : Bool
  warnedCleanup : Bool
  killedSigTerm : Bool

def execInit : ExecRun :=
  { settled := none, fileDeleted := false, warnedCleanup := false, killedSigTerm := false }

/-- Event handling of a deployed `executeApprovedActions` invocation.  The
source registers only the close handler (plus the stream accumulators): no
timer is ever set and no spawn-error handler is attached, so those events
change nothing.  Inside the close handler the staged artifact is unlinked
inside a try-catch before the exit code is inspected: on success the file
is gone, on failure only a warning is logged, and the settlement is
computed either way. -/
def executeStepMain (batch : List JValue) (unlinkOk : Bool) (s : ExecRun) (e : WEvent) :
    ExecRun :=
  match e with
  | WEvent.timeoutFired => s
  | WEvent.spawnErrored _ _ => s
  | WEvent.closed code out err =>
    let s1 := if unlinkOk then { s with fileDeleted := true } else { s with warnedCleanup := true }
    { s1 with settled := settleOnce s.settled (executeCloseMain batch code out err) }

/-! ### Task registries -/

/-- The deployed file's QA task registry: a single task (id and display
name; the category and MVP flag are omitted). -/
def QA_TASKS_main : List (String × String) :=
  [("find-duplicate-pages", "Find and Remove Duplicate Pages")]

def isRegisteredMain (t : String) : Bool := QA_TASKS_main.any (fun p => p.fst == t)

/-- The V3 registry: task id mapped to the worker script reference. -/
def QA_TASKS_v3scripts : List (String × String) :=
  [("find-duplicate-pages", "duplicate_page_cleaner.py"),
   ("validate-assignment-settings", "assignment_settings_validator.py"),
   ("title-alignment-checker", "title_alignment_checker.py"),
   ("assessment-date-updater", "assessment_date_updater.py"),
   ("table-caption-checker", "table_caption_checker.py"),
   ("remove-empty-groups-modules", "empty_groups_modules_cleaner.py"),
   ("rubric-cleanup", "rubric_cleanup_analyzer.py"),
   ("syllabus-acuo-attribution-remover", "syllabus_acuo_attribution_remover.py")]

def alookup (l : List (String × String)) (k : String) : Option String :=
  match l with
  | [] => none
  | (k2, v) :: rest => if k2 == k then some v else alookup rest k

/-! ### Request validation pipelines (everything that runs before spawn) -/

/-- The environment variables the orchestrator reads. -/
structure Env where
  canvasUrl : Option String
  apiToken : Option String

/-- Models `process.env.X || d`: the default applies when the variable is
unset or empty. -/
def jsOrStr (o : Option String) (d : String) : String :=
  match o with
  | some s => if s == "" then d else s
  | none => d

def envToken (e : Env) : String := jsOrStr e.apiToken ""

def envUrl (e : Env) : String := jsOrStr e.canvasUrl "aculeo.test.instructure.com"

/-- JavaScript truthiness of an optional request field holding a string:
absent or empty is falsy. -/
def truthyO : Option String → Bool
  | none => false
  | some s => !(s == "")

/-- Template-literal interpolation of an optional request field: an absent
value prints as the text undefined. -/
def jsTemplate : Option String → String
  | none => "undefined"
  | some s => s

/-- Models `url.replace` of a leading scheme, as done by the V3 argument
builder. -/
def stripScheme (u : String) : String :=
  if strIncludes (strTake u 8) "https://" && listIsPrefixOf "https://".data u.data then
    String.mk (u.data.drop 8)
  else if listIsPrefixOf "http://".data u.data then String.mk (u.data.drop 7)
  else u

inductive ValErr where
  | missingTaskId
  | missingCourseId
  | missingIds
  | unknownTask (t : String)
  | noToken
  | noUrl
  | noScript
deriving DecidableEq

/-- Everything the deployed `/execute` handler and `analyzeTask` run
before the spawn call, in source order: the handler requires a task id and
a course id; the task switch rejects unknown ids; then the API token, the
Canvas URL, and the script file are checked.  The ok value is the argument
list handed to the spawn call. -/
def analyzePreMain (taskId courseId : Option String) (env : Env) (scriptExists : Bool) :
    Except ValErr (List String) :=
  if truthyO taskId then
    if truthyO courseId then
      let t := taskId.getD ""
      if t = "find-duplicate-pages" then
        if envToken env == "" then Except.error ValErr.noToken
        else if envUrl env == "" then Except.error ValErr.noUrl
        else if scriptExists then
          Except.ok ["scripts/duplicate_page_cleaner.py", "--canvas-url", envUrl env,
            "--api-token", envToken env, "--course-id", courseId.getD "",
            "--similarity-threshold", "0.9", "--analyze-only"]
        else Except.error ValErr.noScript
      else Except.error (ValErr.unknownTask t)
    else Except.error ValErr.missingCourseId
  else Except.error ValErr.missingTaskId

/-- Everything the V3 `/execute` handler and `analyzeTask` run before the
spawn call: the handler requires both ids with a single check; the registry
lookup rejects unknown ids; then the token and the script file are
checked. -/
def analyzePreV3 (taskId courseId : Option String) (env : Env) (scriptExists : Bool) :
    Except ValErr (List String) :=
  if truthyO taskId && truthyO courseId then
    match alookup QA_TASKS_v3scripts (taskId.getD "") with
    | some script =>
      if envToken env == "" then Except.error ValErr.noToken
      else if scriptExists then
        Except.ok ["scripts/" ++ script, "--canvas-url", stripScheme (envUrl env),
          "--api-token", envToken env, "--course-id", courseId.getD "", "--analyze-only"]
      else Except.error ValErr.noScript
    | none => Except.error (ValErr.unknownTask (taskId.getD ""))
  else Except.error ValErr.missingIds

/-- Everything the deployed `/execute-approved` handler and
`executeApprovedActions` run before the spawn call.  The handler performs
no validation at all; the function rejects unknown task ids and a missing
API token, then unconditionally stages the artifact file and spawns — the
course id and the batch size are never checked.  The ok value is the
staged file name and the argument list. -/
def executeApprovedPreMain (taskId courseId : Option String) (_batch : List JValue) (env : Env)
    (now : Nat) : Except ValErr (String × List String) :=
  match taskId with
  | some t =>
    if t = "find-duplicate-pages" then
      if envToken env == "" then Except.error ValErr.noToken
      else
        let file := "temp/approved_actions_" ++ jsTemplate courseId ++ "_" ++ toString now ++
          ".json"
        Except.ok (file, ["scripts/duplicate_page_cleaner.py", "--canvas-url", envUrl env,
          "--api-token", envToken env, "--course-id", jsTemplate courseId,
          "--execute-approved", file])
    else Except.error (ValErr.unknownTask t)
  | none => Except.error (ValErr.unknownTask "undefined")

/-- Outcome of the V3 `/execute-approved` request before any spawn: the
handler validates both ids and the actions array, short-circuits an empty
batch to a success response without invoking `executeApprovedActions`, and
otherwise the function rejects unknown tasks and a missing token before
staging and spawning. -/
inductive ExecPreV3 where
  | emptyShort
  | staged (file : String) (args : List String)

def executeApprovedPreV3 (taskId courseId : Option String) (batch : List JValue) (env : Env)
    (now : Nat) : Except ValErr ExecPreV3 :=
  if truthyO taskId && truthyO courseId then
    if batch.length = 0 then Except.ok ExecPreV3.emptyShort
    else
      match alookup QA_TASKS_v3scripts (taskId.getD "") with
      | some script =>
        if envToken env == "" then Except.error ValErr.noToken
        else
          let file := "temp/approved_actions_" ++ (courseId.getD "") ++ "_" ++ toString now ++
            ".json"
          Except.ok (ExecPreV3.staged file ["scripts/" ++ script, "--canvas-url",
            stripScheme (envUrl env), "--api-token", envToken env, "--course-id",
            courseId.getD "", "--execute-from-json", file])
      | none => Except.error (ValErr.unknownTask (taskId.getD ""))
  else Except.error ValErr.missingIds

/-- The single spawn call of `analyzeTask` executes exactly when the
straight-line validation falls through. -/
def spawnCountA : Except ValErr (List String) → Nat
  | Except.ok _ => 1
  | Except.error _ => 0

def spawnCountEM : Except ValErr (String × List String) → Nat
  | Except.ok _ => 1
  | Except.error _ => 0

def spawnCountEV3 : Except ValErr ExecPreV3 → Nat
  | Except.ok ExecPreV3.emptyShort => 0
  | Except.ok (ExecPreV3.staged _ _) => 1
  | Except.error _ => 0

def isErrB {ε α : Type} : Except ε α → Bool
  | Except.error _ => true
  | Except.ok _ => false

/-! ### A definition following the words of the spec, for comparison with
extraction strategy 3 -/

def balancedFrom (depth : Nat) (acc : List Char) : List Char → Option (List Char)
  | [] => none
  | c :: cs =>
    if c == lbChar then balancedFrom (depth + 1) (c :: acc) cs
    else if c == rbChar then
      match depth with
      | 0 => none
      | 1 => some ((c :: acc).reverse)
      | Nat.succ (Nat.succ d) => balancedFrom (Nat.succ d) (c :: acc) cs
    else balancedFrom depth (c :: acc) cs

/-- Follows the words of the spec, section 4.3, strategy 3: scan the full
text for the first balanced brace-delimited span.  Stated for comparison
with `greedyBraceSpanStr`, the regex actually used by the source. -/
def specFirstBalancedSpan (s : String) : Option String :=
  match s.data.dropWhile (fun c => !(c == lbChar)) with
  | c :: cs => (balancedFrom 1 [c] cs).map String.mk
  | [] => none

/-! ### Shared helper lemmas and concrete inputs -/

def mainResolveFindings : Except String MainResolve → Option JValue
  | Except.ok r => some r.findings
  | Except.error _ => none

theorem strLen_append (a b : String) : strLen (a ++ b) = strLen a + strLen b := by
  cases a with
  | mk as =>
    cases b with
    | mk bs => simp [strLen, String.append]

theorem strTake_len_le (s : String) (n : Nat) : strLen (strTake s n) ≤ n := by
  show (s.data.take n).length ≤ n
  rw [List.length_take]
  exact Nat.min_le_left _ _

/-- The stdout line of the specified extraction example. -/
def lineC5 : String :=
  "ENHANCED_ANALYSIS_JSON: \x7b\"findings\":\x7b\"safeActions\":[\x7b\"id\":1,\"reason\":\"r\"\x7d],\"manualReviewActions\":[]\x7d,\"summary\":\x7b\x7d\x7d"

def itemC5 : JValue := JValue.jobj [("id", JValue.jnum "1"), ("reason", JValue.jstr "r")]

def docC5 : JValue :=
  JValue.jobj
    [("findings", JValue.jobj
      [("safeActions", JValue.jarr [itemC5]),
       ("manualReviewActions", JValue.jarr [])]),
     ("summary", JValue.jobj [])]

/-- A stdout text whose first balanced brace span is valid JSON while the
greedy first-brace-to-last-brace span is not. -/
def textC4 : String := "\x7b\"a\":1\x7d noise \x7d"

def longStderr : String := String.mk (List.replicate 1000 'a')

def env0 : Env := { canvasUrl := none, apiToken := some "tok" }

def envNoTok : Env := { canvasUrl := none, apiToken := none }

/-! ### Claim theorems -/

/-- C5: for exit code 0 and the specific enhanced-sentinel stdout line,
the analyze-mode extraction returns a result whose safe-actions sequence
has exactly one element, and that element's id equals 1.  The V3 extractor
resolves the parsed document directly; the deployed extractor carries the
same document as its findings payload. -/
theorem c5_enhanced_sentinel_singleton_safe_action :
    analyzeCloseV3 0 lineC5 "" = Except.ok docC5 ∧
    jget2 docC5 "findings" "safeActions" = some (JValue.jarr [itemC5]) ∧
    jget itemC5 "id" = some (JValue.jnum "1") ∧
    mainResolveFindings (analyzeCloseMain 0 lineC5 "") = some docC5 :=
  ⟨rfl, rfl, rfl, rfl⟩

/-- C4 counterexample: on this text neither sentinel strategy applies and
the first balanced brace span parses to an object, so the claimed behavior
predicts a best-effort success; the extractor instead fails, because its
actual strategy-3 regex takes the greedy span from the first opening brace
to the last closing brace, which is not valid JSON here. -/
theorem c4_ce_greedy_span_not_first_balanced :
    extractMain textC4 =
      Except.error
        ("Analysis completed but no recognizable results were found. Raw output: " ++
          strTake textC4 500) ∧
    specFirstBalancedSpan textC4 = some "\x7b\"a\":1\x7d" ∧
    jsonParse "\x7b\"a\":1\x7d" = some (JValue.jobj [("a", JValue.jnum "1")]) ∧
    greedyBraceSpanStr textC4 = some textC4 ∧
    jsonParse textC4 = none :=
  ⟨rfl, rfl, rfl, rfl, rfl⟩

/-- C4 (amended): for every analyze-mode stdout text where neither the
primary sentinel nor the legacy sentinel yields a parseable JSON document,
the extractor parses the greedy span running from the first opening brace
to the last closing brace of the full text and, when that parse succeeds,
returns the parsed content marked as a best-effort extraction; the
strategies are tried in the stated order with the first success winning. -/
theorem c4_extract_strategy_three_greedy :
    ∀ out cap doc,
      (strat1CaptureMain out).bind jsonParse = none →
      (strat2CaptureMain out).bind jsonParse = none →
      greedyBraceSpanStr out = some cap →
      jsonParse cap = some doc →
      extractMain out =
        Except.ok
          { tag := MTag.extractedMode, findings := doc, safe_actions := none
            requires_manual_review := none, risk_assessment := none } := by
  intro out cap doc h1 h2 hcap hdoc
  have hs3 : extractMainS3 out =
      Except.ok
        { tag := MTag.extractedMode, findings := doc, safe_actions := none
          requires_manual_review := none, risk_assessment := none } := by
    simp [extractMainS3, hcap, hdoc]
  have hs2 : extractMainS2 out =
      Except.ok
        { tag := MTag.extractedMode, findings := doc, safe_actions := none
          requires_manual_review := none, risk_assessment := none } := by
    cases hc2 : strat2CaptureMain out with
    | none => simpa [extractMainS2, hc2] using hs3
    | some c2 =>
      rw [hc2] at h2
      simp only [Option.some_bind] at h2
      simpa [extractMainS2, hc2, h2] using hs3
  cases hc1 : strat1CaptureMain out with
  | none => simpa [extractMain, hc1] using hs2
  | some c1 =>
    rw [hc1] at h1
    simp only [Option.some_bind] at h1
    simpa [extractMain, hc1, h1] using hs2

/-- C4 witness: a concrete text with no sentinels whose greedy brace span
is valid JSON is returned as a best-effort extraction. -/
theorem c4_extract_strategy_three_greedy_witness :
    extractMain "hello \x7b\"a\":1\x7d world" =
      Except.ok
        { tag := MTag.extractedMode, findings := JValue.jobj [("a", JValue.jnum "1")]
          safe_actions := none, requires_manual_review := none, risk_assessment := none } :=
  c4_extract_strategy_three_greedy "hello \x7b\"a\":1\x7d world" "\x7b\"a\":1\x7d"
    (JValue.jobj [("a", JValue.jnum "1")]) rfl rfl rfl rfl

/-- C1 counterexample: the staged artifact can outlive the execute-mode
invocation that consumed it.  When the worker closes but the unlink throws,
the failure is caught and the artifact survives while the call still
resolves; and on a spawn error nothing at all runs (no handler is
registered), so no deletion is attempted. -/
theorem c1_ce_artifact_survives :
    (executeStepMain [] false execInit (WEvent.closed 0 "done" "")).fileDeleted = false ∧
    (executeStepMain [] false execInit (WEvent.closed 0 "done" "")).settled =
      some (Except.ok (ExecOutcomeMain.completedRaw "done")) ∧
    executeStepMain [] true execInit (WEvent.spawnErrored true "spawn ENOENT") = execInit :=
  ⟨rfl, rfl, rfl⟩

/-- C1 (amended): when the execute-mode worker terminates via the close
event (any exit code) and the unlink succeeds, the staged artifact is
deleted before the call settles; a failed deletion is only logged and the
artifact survives, and no deletion is attached to the spawn-failure or
timeout paths (execute mode registers neither handler). -/
theorem c1_close_deletes_artifact :
    ∀ (b : List JValue) (code : Int) (out err : String),
      (executeStepMain b true execInit (WEvent.closed code out err)).fileDeleted = true ∧
      (executeStepMain b true execInit (WEvent.closed code out err)).settled =
        some (executeCloseMain b code out err) :=
  fun _ _ _ _ => ⟨rfl, rfl⟩

/-- C3 counterexample: an execute-mode invocation has no timeout: the
deadline event is not handled at all, so no termination signal is sent and
the call does not resolve as a timeout error. -/
theorem c3_ce_execute_has_no_timeout :
    executeStepMain [] true execInit WEvent.timeoutFired = execInit ∧
    (executeStepMain [] true execInit WEvent.timeoutFired).killedSigTerm = false ∧
    (executeStepMain [] true execInit WEvent.timeoutFired).settled = none :=
  ⟨rfl, rfl, rfl⟩

/-- C3 (amended): analyze-mode invocations enforce the 300000 ms deadline:
when the timer fires a SIGTERM kill is issued and the call settles with the
timeout error, and stdout buffered up to that point is discarded (a later
close event cannot change the settlement); execute-mode invocations
register no timer and never issue a termination signal. -/
theorem c3_analyze_timeout_policy :
    analyzeTimeoutMsMain = 300000 ∧
    analyzeStepMain analyzeInit WEvent.timeoutFired =
      { settled := some (Except.error analyzeTimeoutMsgMain), killedSigTerm := true
        timerCleared := false } ∧
    (∀ (code : Int) (out err : String),
      (analyzeStepMain (analyzeStepMain analyzeInit WEvent.timeoutFired)
        (WEvent.closed code out err)).settled = some (Except.error analyzeTimeoutMsgMain)) ∧
    (∀ (b : List JValue) (u : Bool) (s : ExecRun) (e : WEvent),
      (executeStepMain b u s e).killedSigTerm = s.killedSigTerm) ∧
    (∀ (b : List JValue) (u : Bool) (s : ExecRun),
      executeStepMain b u s WEvent.timeoutFired = s) := by
  refine ⟨rfl, rfl, fun code out err => rfl, ?_, fun b u s => rfl⟩
  intro b u s e
  cases e <;> cases u <;> rfl

/-- C10: in the deployed `executeApprovedActions`, a failure to delete the
staged artifact after the worker closes is caught and only logged: the
settlement is the same function of the batch, exit code, stdout and stderr
whether the unlink succeeded or threw. -/
theorem c10_cleanup_failure_never_changes_outcome :
    ∀ (b : List JValue) (code : Int) (out err : String) (u1 u2 : Bool),
      (executeStepMain b u1 execInit (WEvent.closed code out err)).settled =
        (executeStepMain b u2 execInit (WEvent.closed code out err)).settled ∧
      (executeStepMain b u1 execInit (WEvent.closed code out err)).settled =
        some (executeCloseMain b code out err) ∧
      (executeStepMain b false execInit (WEvent.closed code out err)).warnedCleanup = true ∧
      (executeStepMain b false execInit (WEvent.closed code out err)).fileDeleted = false :=
  fun _ _ _ _ _ _ => ⟨rfl, rfl, rfl, rfl⟩

/-- C2 counterexample: the deployed `executeApprovedActions` does not
short-circuit an empty approved-actions batch: with a valid task id and
token it stages the artifact and reaches the spawn call. -/
theorem c2_ce_main_spawns_on_empty_batch :
    isErrB (executeApprovedPreMain (some "find-duplicate-pages") (some "280") [] env0 0) =
      false ∧
    spawnCountEM (executeApprovedPreMain (some "find-duplicate-pages") (some "280") [] env0 0) =
      1 :=
  ⟨rfl, rfl⟩

/-- C2 (amended): the V3 `/execute-approved` handler short-circuits an
empty approved-actions batch to a success response before invoking
`executeApprovedActions`, so no worker is spawned (this happens even
before the credential check); the deployed revision's
`executeApprovedActions` instead stages and spawns even for an empty
batch. -/
theorem c2_v3_empty_batch_short_circuit :
    (∀ t c env now, truthyO t = true → truthyO c = true →
      executeApprovedPreV3 t c [] env now = Except.ok ExecPreV3.emptyShort ∧
      spawnCountEV3 (executeApprovedPreV3 t c [] env now) = 0) ∧
    (∀ c env now, (envToken env == "") = false →
      spawnCountEM (executeApprovedPreMain (some "find-duplicate-pages") c [] env now) = 1) := by
  constructor
  · intro t c env now ht hc
    constructor
    · simp [executeApprovedPreV3, ht, hc]
    · simp [executeApprovedPreV3, ht, hc, spawnCountEV3]
  · intro c env now htok
    simp [executeApprovedPreMain, htok, spawnCountEM]

/-- C2 witness: concrete instances of the amended claim. -/
theorem c2_v3_empty_batch_short_circuit_witness :
    executeApprovedPreV3 (some "find-duplicate-pages") (some "280") [] env0 0 =
      Except.ok ExecPreV3.emptyShort ∧
    spawnCountEM (executeApprovedPreMain (some "find-duplicate-pages") (some "280") [] env0 0) =
      1 :=
  ⟨(c2_v3_empty_batch_short_circuit.1 (some "find-duplicate-pages") (some "280") env0 0
      (by decide) (by decide)).1,
   c2_v3_empty_batch_short_circuit.2 (some "280") env0 0 (by decide)⟩

set_option maxRecDepth 4096 in
/-- C6 counterexample: stderr containing an ImportError pattern is mapped
by the deployed classifier to a dedicated import-error kind, which is not
one of the six kinds of the claimed taxonomy (the spec-worded classifier
maps it to the generic truncated kind). -/
theorem c6_ce_import_error_branch :
    classifyKindMain "ImportError: cannot import name x" = ErrKind.importErr ∧
    specClassifyKind "ImportError: cannot import name x" =
      ErrKind.genericTrunc (strTake "ImportError: cannot import name x" 200) ∧
    classifyKindMain "ImportError: cannot import name x" ≠
      specClassifyKind "ImportError: cannot import name x" := by
  refine ⟨rfl, rfl, ?_⟩
  intro h
  rw [show classifyKindMain "ImportError: cannot import name x" = ErrKind.importErr from rfl,
      show specClassifyKind "ImportError: cannot import name x" =
        ErrKind.genericTrunc (strTake "ImportError: cannot import name x" 200) from rfl] at h
  exact ErrKind.noConfusion h

/-- C6 (amended): the deployed classifier follows the claimed priority
order (MissingDependency with captured module name, AuthenticationFailure
on 401, PermissionDenied on 403, NotFound on 404, NetworkTimeout, else a
generic error with truncated stderr) except that an ImportError branch is
inserted before the generic case and an empty stderr falls back to a bare
exit-code message; in particular a 401-Unauthorized stderr classifies as
AuthenticationFailure.  The V3 classifier additionally lacks the
NetworkTimeout branch. -/
theorem c6_classifier_matches_spec_modulo_import_error :
    (∀ s : String, (s == "") = false → strIncludes s "ImportError" = false →
      classifyKindMain s = specClassifyKind s) ∧
    classifyKindMain "HTTP 401 Unauthorized" = ErrKind.authFail ∧
    classifyKindV3 "Request timeout" = ErrKind.genericTrunc (strTake "Request timeout" 300) ∧
    specClassifyKind "Request timeout" = ErrKind.netTimeout := by
  refine ⟨?_, rfl, rfl, rfl⟩
  intro s hne himp
  unfold classifyKindMain specClassifyKind
  by_cases h1 : strIncludes s "ModuleNotFoundError" = true
  · simp [h1]
  · by_cases h2 : (strIncludes s "401" || strIncludes s "Unauthorized") = true
    · simp [h1, h2]
    · by_cases h3 : (strIncludes s "403" || strIncludes s "Forbidden") = true
      · simp [h1, h2, h3]
      · by_cases h4 : strIncludes s "404" = true
        · simp [h1, h2, h3, h4]
        · by_cases h5 : (strIncludes s "timeout" || strIncludes s "ConnectionError") = true
          · simp [h1, h2, h3, h4, h5]
          · simp [h1, h2, h3, h4, h5, himp, hne]

/-- C6 witness: the classifier agreement at a concrete stderr, and the
claimed 401 case. -/
theorem c6_classifier_matches_spec_modulo_import_error_witness :
    classifyKindMain "boom" = specClassifyKind "boom" ∧
    classifyKindMain "HTTP 401 Unauthorized" = ErrKind.authFail :=
  ⟨c6_classifier_matches_spec_modulo_import_error.1 "boom" (by decide) (by decide),
   c6_classifier_matches_spec_modulo_import_error.2.1⟩

set_option maxRecDepth 8192 in
/-- C7 counterexample: an execute-mode failure embeds the whole stderr
text in the surfaced message: for a 1000-character stderr the message
carries all 1018 characters, exceeding every truncation bound used in the
codebase. -/
theorem c7_ce_execute_embeds_full_stderr :
    executeCloseMain [] 1 "" longStderr = Except.error ("Execution failed: " ++ longStderr) ∧
    strLen ("Execution failed: " ++ longStderr) = 1018 := by
  constructor
  · rfl
  · rw [strLen_append]
    have h1 : strLen "Execution failed: " = 18 := rfl
    have h2 : strLen longStderr = 1000 := by simp [longStderr, strLen]
    omega

/-- C7 (amended): analyze-mode failures truncate the stderr excerpt (200
characters in the deployed classifier, 300 in the V3 classifier), but the
execute-mode failure message embeds the full stderr unbounded. -/
theorem c7_analyze_stderr_truncated :
    (∀ (code : Int) (s : String),
      strIncludes s "ModuleNotFoundError" = false →
      strIncludes s "401" = false → strIncludes s "Unauthorized" = false →
      strIncludes s "403" = false → strIncludes s "Forbidden" = false →
      strIncludes s "404" = false →
      strIncludes s "timeout" = false → strIncludes s "ConnectionError" = false →
      strIncludes s "ImportError" = false → (s == "") = false →
      classifyMsgMain code s = "Python script error: " ++ strTake s 200 ∧
      strLen (classifyMsgMain code s) ≤ 221) ∧
    (∀ (code : Int) (s : String),
      strIncludes s "ModuleNotFoundError" = false →
      strIncludes s "401" = false → strIncludes s "Unauthorized" = false →
      strIncludes s "403" = false → strIncludes s "Forbidden" = false →
      strIncludes s "404" = false → (s == "") = false →
      classifyMsgV3 code s = "The script encountered an error: " ++ strTake s 300 ++ "..." ∧
      strLen (classifyMsgV3 code s) ≤ 336) := by
  constructor
  · intro code s hmod h401 hu h403 hf h404 hto hconn himp hne
    have hk : classifyKindMain s = ErrKind.genericTrunc (strTake s 200) := by
      simp [classifyKindMain, hmod, h401, hu, h403, hf, h404, hto, hconn, himp, hne]
    have hm : classifyMsgMain code s = "Python script error: " ++ strTake s 200 := by
      simp [classifyMsgMain, hk]
    refine ⟨hm, ?_⟩
    rw [hm, strLen_append]
    have hp : strLen "Python script error: " = 21 := rfl
    have : strLen (strTake s 200) ≤ 200 := strTake_len_le s 200
    omega
  · intro code s hmod h401 hu h403 hf h404 hne
    have hk : classifyKindV3 s = ErrKind.genericTrunc (strTake s 300) := by
      simp [classifyKindV3, hmod, h401, hu, h403, hf, h404, hne]
    have hm : classifyMsgV3 code s = "The script encountered an error: " ++ strTake s 300 ++
        "..." := by
      simp [classifyMsgV3, hk]
    refine ⟨hm, ?_⟩
    rw [hm, strLen_append, strLen_append]
    have hp : strLen "The script encountered an error: " = 33 := rfl
    have : strLen (strTake s 300) ≤ 300 := strTake_len_le s 300
    have h3 : strLen "..." = 3 := rfl
    omega

/-- C7 witness: the truncated analyze-mode messages at a concrete
stderr. -/
theorem c7_analyze_stderr_truncated_witness :
    classifyMsgMain 1 "boom" = "Python script error: " ++ strTake "boom" 200 ∧
    classifyMsgV3 1 "boom" = "The script encountered an error: " ++ strTake "boom" 300 ++
      "..." :=
  ⟨(c7_analyze_stderr_truncated.1 1 "boom" (by decide) (by decide) (by decide) (by decide)
      (by decide) (by decide) (by decide) (by decide) (by decide) (by decide)).1,
   (c7_analyze_stderr_truncated.2 1 "boom" (by decide) (by decide) (by decide) (by decide)
      (by decide) (by decide) (by decide)).1⟩

/-- C8 counterexample: a deployed `/execute-approved` request with no
course id and a configured token is not rejected: the artifact is staged
and the spawn call is reached, the undefined course id interpolated into
the file name and the arguments. -/
theorem c8_ce_execute_approved_skips_course_id :
    isErrB (executeApprovedPreMain (some "find-duplicate-pages") none [] env0 0) = false ∧
    spawnCountEM (executeApprovedPreMain (some "find-duplicate-pages") none [] env0 0) = 1 ∧
    executeApprovedPreMain (some "find-duplicate-pages") none [] env0 0 =
      Except.ok ("temp/approved_actions_undefined_0.json",
        ["scripts/duplicate_page_cleaner.py", "--canvas-url", "aculeo.test.instructure.com",
         "--api-token", "tok", "--course-id", "undefined", "--execute-approved",
         "temp/approved_actions_undefined_0.json"]) :=
  ⟨rfl, rfl, rfl⟩

/-- C8 (amended): a missing course id or a missing credential fails
validation before any spawn for `analyze` (both revisions) and for the V3
`executeApproved` path; the deployed `executeApprovedActions`, however,
never checks the course id, and the V3 empty-batch short-circuit returns
success before the credential check, so the credential guard there only
applies to nonempty batches. -/
theorem c8_validation_before_spawn_amended :
    (∀ t c env se, truthyO c = false →
      isErrB (analyzePreMain t c env se) = true ∧
      spawnCountA (analyzePreMain t c env se) = 0) ∧
    (∀ t c env se, truthyO c = false →
      isErrB (analyzePreV3 t c env se) = true ∧
      spawnCountA (analyzePreV3 t c env se) = 0) ∧
    (∀ t c env se, (envToken env == "") = true →
      isErrB (analyzePreMain t c env se) = true ∧
      spawnCountA (analyzePreMain t c env se) = 0) ∧
    (∀ t c env se, (envToken env == "") = true →
      isErrB (analyzePreV3 t c env se) = true ∧
      spawnCountA (analyzePreV3 t c env se) = 0) ∧
    (∀ t c b env now, (envToken env == "") = true →
      isErrB (executeApprovedPreMain t c b env now) = true ∧
      spawnCountEM (executeApprovedPreMain t c b env now) = 0) ∧
    (∀ t c b env now, (envToken env == "") = true → b ≠ [] →
      isErrB (executeApprovedPreV3 t c b env now) = true ∧
      spawnCountEV3 (executeApprovedPreV3 t c b env now) = 0) ∧
    (∀ t c b env now, truthyO c = false →
      isErrB (executeApprovedPreV3 t c b env now) = true ∧
      spawnCountEV3 (executeApprovedPreV3 t c b env now) = 0) := by
  refine ⟨?_, ?_, ?_, ?_, ?_, ?_, ?_⟩
  · intro t c env se hc
    cases ht : truthyO t <;>
      simp [analyzePreMain, ht, hc, isErrB, spawnCountA]
  · intro t c env se hc
    simp [analyzePreV3, hc, isErrB, spawnCountA]
  · intro t c env se htok
    cases ht : truthyO t <;> cases hc : truthyO c <;>
      by_cases hq : t.getD "" = "find-duplicate-pages" <;>
      simp [analyzePreMain, ht, hc, hq, htok, isErrB, spawnCountA]
  · intro t c env se htok
    cases ht : truthyO t <;> cases hc : truthyO c <;>
      cases halk : alookup QA_TASKS_v3scripts (t.getD "") <;>
      simp [analyzePreV3, ht, hc, htok, halk, isErrB, spawnCountA]
  · intro t c b env now htok
    cases t with
    | none => simp [executeApprovedPreMain, isErrB, spawnCountEM]
    | some t0 =>
      by_cases hq : t0 = "find-duplicate-pages" <;>
        simp [executeApprovedPreMain, hq, htok, isErrB, spawnCountEM]
  · intro t c b env now htok hb
    have hlen : ¬(b.length = 0) := by
      cases b with
      | nil => exact absurd rfl hb
      | cons x xs => simp
    cases htc : (truthyO t && truthyO c) with
    | false => simp [executeApprovedPreV3, htc, isErrB, spawnCountEV3]
    | true =>
      cases halk : alookup QA_TASKS_v3scripts (t.getD "") <;>
        simp [executeApprovedPreV3, htc, hlen, halk, htok, isErrB, spawnCountEV3]
  · intro t c b env now hc
    have htc : (truthyO t && truthyO c) = false := by simp [hc]
    simp [executeApprovedPreV3, htc, isErrB, spawnCountEV3]

/-- C8 witness: concrete instances of each amended conjunct. -/
theorem c8_validation_before_spawn_amended_witness :
    isErrB (analyzePreMain (some "find-duplicate-pages") (some "") env0 true) = true ∧
    isErrB (analyzePreV3 (some "find-duplicate-pages") none env0 true) = true ∧
    isErrB (analyzePreMain (some "find-duplicate-pages") (some "280") envNoTok true) = true ∧
    isErrB (analyzePreV3 (some "find-duplicate-pages") (some "280") envNoTok true) = true ∧
    isErrB (executeApprovedPreMain (some "find-duplicate-pages") (some "280") [] envNoTok 0) =
      true ∧
    isErrB (executeApprovedPreV3 (some "find-duplicate-pages") (some "280") [JValue.jnull]
      envNoTok 0) = true ∧
    isErrB (executeApprovedPreV3 (some "find-duplicate-pages") none [JValue.jnull] env0 0) =
      true :=
  ⟨(c8_validation_before_spawn_amended.1 (some "find-duplicate-pages") (some "") env0 true
      (by decide)).1,
   (c8_validation_before_spawn_amended.2.1 (some "find-duplicate-pages") none env0 true
      (by decide)).1,
   (c8_validation_before_spawn_amended.2.2.1 (some "find-duplicate-pages") (some "280")
      envNoTok true (by decide)).1,
   (c8_validation_before_spawn_amended.2.2.2.1 (some "find-duplicate-pages") (some "280")
      envNoTok true (by decide)).1,
   (c8_validation_before_spawn_amended.2.2.2.2.1 (some "find-duplicate-pages") (some "280") []
      envNoTok 0 (by decide)).1,
   (c8_validation_before_spawn_amended.2.2.2.2.2.1 (some "find-duplicate-pages") (some "280")
      [JValue.jnull] envNoTok 0 (by decide) (List.cons_ne_nil _ _)).1,
   (c8_validation_before_spawn_amended.2.2.2.2.2.2 (some "find-duplicate-pages") none
      [JValue.jnull] env0 0 (by decide)).1⟩

/-- C9: for every task id absent from the registry (with the other request
fields present), both revisions of the analyze operation return an
unknown-task error and the spawn call is never reached. -/
theorem c9_unknown_task_rejected_before_spawn :
    (∀ t c env se, isRegisteredMain t = false → (t == "") = false → truthyO c = true →
      analyzePreMain (some t) c env se = Except.error (ValErr.unknownTask t) ∧
      spawnCountA (analyzePreMain (some t) c env se) = 0) ∧
    (∀ t c env se, alookup QA_TASKS_v3scripts t = none → (t == "") = false →
      truthyO c = true →
      analyzePreV3 (some t) c env se = Except.error (ValErr.unknownTask t) ∧
      spawnCountA (analyzePreV3 (some t) c env se) = 0) := by
  constructor
  · intro t c env se hreg hne hc
    have hneq : ¬(t = "find-duplicate-pages") := by
      intro h
      rw [h] at hreg
      simp [isRegisteredMain, QA_TASKS_main] at hreg
    have ht : truthyO (some t) = true := by simp [truthyO, hne]
    constructor
    · simp [analyzePreMain, ht, hc, hneq]
    · simp [analyzePreMain, ht, hc, hneq, spawnCountA]
  · intro t c env se halk hne hc
    have ht : truthyO (some t) = true := by simp [truthyO, hne]
    constructor
    · simp [analyzePreV3, ht, hc, halk]
    · simp [analyzePreV3, ht, hc, halk, spawnCountA]

/-- C9 witness: a concrete unregistered task id is rejected by both
revisions with no spawn. -/
theorem c9_unknown_task_rejected_before_spawn_witness :
    analyzePreMain (some "no-such-task") (some "280") env0 true =
      Except.error (ValErr.unknownTask "no-such-task") ∧
    analyzePreV3 (some "no-such-task") (some "280") env0 true =
      Except.error (ValErr.unknownTask "no-such-task") :=
  ⟨(c9_unknown_task_rejected_before_spawn.1 "no-such-task" (some "280") env0 true
      (by decide) (by decide) (by decide)).1,
   (c9_unknown_task_rejected_before_spawn.2 "no-such-task" (some "280") env0 true
      (by decide) (by decide) (by decide)).1⟩

end QALti
